import Mathlib

/-!
Shallow embedding of the Arduino DHT11 weather-station firmware
(`src/main2.cpp`) and proofs about its rolling log, renderer,
acquisition loop and metric bank.

Modelling conventions:
* The rolling log (`log_history`/`log_times` arrays plus `log_count`) is
  represented by its active prefix, a `List (String × Nat)` of
  (message, timestamp-in-milliseconds) pairs of length `log_count`.
* `millis()` values are passed in explicitly as `Nat` arguments.
* Serial output is modelled as the list of printed lines.
* One call of `loop()` is modelled as a finite trace of events
  (sensor read, log operations, rendering, LED blinks, delays).
* The metric formulas are modelled over `ℝ`.
-/

namespace WeatherStation

/-- `const int LOG_SIZE = 6;` — capacity of the rolling log. -/
def LOG_SIZE : Nat := 6

/-- One log entry: the pair `(log_history[i], log_times[i])`. -/
abbrev LogEntry := String × Nat

/-- `add_log(msg)` from the source, acting on the active prefix of the
log arrays.  Below capacity the entry is stored at index `log_count`
and the count is incremented; at capacity the `for` loop shifts every
entry one slot down (dropping index 0) and the new entry is written at
index `LOG_SIZE - 1`. -/
def add_log (log : List LogEntry) (msg : String) (now : Nat) : List LogEntry :=
  if log.length < LOG_SIZE then
    log ++ [(msg, now)]
  else
    log.drop 1 ++ [(msg, now)]

/-- `log_count = 0;` at the start of each cycle: the active prefix becomes
empty. -/
def clearLog : List LogEntry := []

/-- Replay a sequence of `add_log` calls starting from the cleared log. -/
def replayLog (entries : List LogEntry) : List LogEntry :=
  entries.foldl (fun l e => add_log l e.1 e.2) clearLog

/-- The wait-marker message appended before each wait window and matched
verbatim by the renderer. -/
def WAIT_MSG : String := "=== WAIT FOR 10 SECONDS FOR SCREEN TO REFRESH ==="

/-- `%02lu`: decimal rendering zero-padded to at least two digits. -/
def pad2 (n : Nat) : String :=
  if n < 10 then "0" ++ toString n else "" ++ toString n

/-- The `[%02lu:%02lu:%02lu]` timestamp of a log line: `sec = log_times[i]
/ 1000`, then hours `sec/3600`, minutes `(sec/60)%60`, seconds `sec%60`. -/
def timeStamp (ms : Nat) : String :=
  "[" ++ pad2 (ms / 1000 / 3600) ++ ":" ++ pad2 (ms / 1000 / 60 % 60) ++ ":"
    ++ pad2 (ms / 1000 % 60) ++ "]"

/-- One printed line of the log section (`Serial.print("  ")` followed by
`Serial.println`): the wait marker is printed without a timestamp, every
other entry as `[HH:MM:SS] message`. -/
def logLine (e : LogEntry) : String :=
  if e.1 = WAIT_MSG then "  " ++ e.1
  else "  " ++ timeStamp e.2 ++ " " ++ e.1

/-- The blank padding line printed for unused log slots (53 spaces). -/
def BLANK_LINE : String := "                                                     "

/-- `print_log_section()`: the header line, one line per stored entry,
blank lines for the `LOG_SIZE - log_count` unused slots, and one final
blank line. -/
def print_log_section (log : List LogEntry) : List String :=
  "Log & Status:                                    " ::
    (log.map logLine ++ List.replicate (LOG_SIZE - log.length) BLANK_LINE
      ++ [BLANK_LINE])

/-- `print_instructions()`: the four fixed footer lines. -/
def print_instructions : List String :=
  ["+----------------------------------------------------+",
   "| HexKernel | GitHub Repository                      |",
   "| github.com/HexKernel/Arduino-DHT11-Weather-Station |",
   "+----------------------------------------------------+"]

/-- Observable events of one `loop()` call.  `ledBlink n d` stands for a
call `blinkLed(n, d)` (each blink drives the pin HIGH, delays `d` ms,
drives it LOW and delays `d` ms again); `sleep ms` stands for a bare
`delay(ms)`; `printPanel` stands for the screen-clear plus
header/metrics block of the valid branch; `printLog` and `printInstr`
are the calls to `print_log_section()` and `print_instructions()`. -/
inductive Ev where
  | sensorRead
  | logClear
  | logAdd (msg : String)
  | computeMetrics
  | ledBlink (times delayMs : Nat)
  | printPanel
  | printLog
  | printInstr
  | sleep (ms : Nat)
deriving DecidableEq

/-- Busy-wait duration of `blinkLed(times, delayMs)`: each iteration
delays `delayMs` ms with the LED on and `delayMs` ms with it off. -/
def blinkDuration (times delayMs : Nat) : Nat := times * (2 * delayMs)

/-- Milliseconds of blocking wait contributed by one event. -/
def sleepOf : Ev → Nat
  | .ledBlink n d => blinkDuration n d
  | .sleep ms => ms
  | _ => 0

/-- Total blocking-wait time of a trace, in milliseconds. -/
def totalSleep (tr : List Ev) : Nat := (tr.map sleepOf).sum

/-- The wait-window blink loop shared by both branches:
`for (i = 0; i < 8; ++i) { blinkLed(1, 625); delay(625); }`. -/
def waitBlinks : List Ev :=
  List.flatten (List.replicate 8 [.ledBlink 1 625, .sleep 625])

/-- Trace of one `loop()` call, as a function of whether
`dht.readTemperature()` and `dht.readHumidity()` returned NaN.  The
loop first reads both sensor values, then resets `log_count`, appends
the measurement-received entry, and branches on `isnan(temp) ||
isnan(hum)`. -/
def loopTrace (tempIsNan humIsNan : Bool) : List Ev :=
  [.sensorRead, .logClear, .logAdd "Measurement received from DHT11."] ++
  (if tempIsNan || humIsNan then
    [.logAdd "Sensor error: nan values.", .logAdd WAIT_MSG,
     .printLog, .printInstr] ++
    waitBlinks ++ [.sleep 5000]
  else
    [.logAdd "Calculations for metrics done.", .computeMetrics,
     .logAdd "Parsing data to serial output.", .ledBlink 3 70, .printPanel,
     .logAdd "Successful display to serial monitor.", .logAdd WAIT_MSG,
     .printLog, .printInstr] ++
    waitBlinks)

/-- The suffix of a trace after its (unique) `printInstr` event: in both
branches `print_instructions()` is the last rendering call of the cycle,
so this is everything executed from the end of rendering to the end of
the cycle. -/
def afterLastRender (tr : List Ev) : List Ev :=
  (tr.dropWhile (fun e => e ≠ Ev.printInstr)).drop 1

/-- The messages passed to `add_log` during a trace, in order. -/
def evLogMsg : Ev → Option String
  | .logAdd m => some m
  | _ => none

/-- Is the event a rendering (serial-output) call? -/
def isRenderEv : Ev → Bool
  | .printPanel => true
  | .printLog => true
  | .printInstr => true
  | _ => false

/-- The `add_log` messages of one cycle. -/
def cycleLogMsgs (tempIsNan humIsNan : Bool) : List String :=
  (loopTrace tempIsNan humIsNan).filterMap evLogMsg

/-! ### Metric bank

The ten derived quantities computed on the valid branch (source lines
145–154), modelled over `ℝ`.  `heatIndex` is supplied by the DHT sensor
library (`dht.computeHeatIndex`) and is an external collaborator, not
code of this repository, so it is not modelled. -/

noncomputable section

/-- `dewPoint = temp - ((100 - hum) / 5.0)`. -/
def dewPoint (temp hum : ℝ) : ℝ := temp - ((100 - hum) / 5.0)

/-- `absHumidity = 216.7 * ((hum/100) * 6.112 * exp(17.62*temp/(243.12+temp)) / (273.15+temp))`. -/
def absHumidity (temp hum : ℝ) : ℝ :=
  216.7 * ((hum / 100.0) * 6.112 * Real.exp ((17.62 * temp) / (243.12 + temp))
    / (273.15 + temp))

/-- `specificHumidity = (0.622 * (hum/100)) / (1 + (0.622 * (hum/100)))`. -/
def specificHumidity (hum : ℝ) : ℝ :=
  (0.622 * (hum / 100.0)) / (1 + 0.622 * (hum / 100.0))

/-- `mixingRatio = (622 * (hum/100)) / (1000 - (hum/100))`. -/
def mixingRatio (hum : ℝ) : ℝ := (622 * (hum / 100.0)) / (1000 - hum / 100.0)

/-- `vaporPressure = hum/100 * 6.112 * exp(17.62*temp/(243.12+temp))`. -/
def vaporPressure (temp hum : ℝ) : ℝ :=
  hum / 100.0 * 6.112 * Real.exp ((17.62 * temp) / (243.12 + temp))

/-- `satVaporPressure = 6.112 * exp(17.62*temp/(243.12+temp))`. -/
def satVaporPressure (temp : ℝ) : ℝ :=
  6.112 * Real.exp ((17.62 * temp) / (243.12 + temp))

/-- `wetBulb` — the Stull empirical approximation (source line 152). -/
def wetBulb (temp hum : ℝ) : ℝ :=
  temp * Real.arctan (0.151977 * Real.sqrt (hum + 8.313659))
    + Real.arctan (temp + hum) - Real.arctan (hum - 1.676331)
    + 0.00391838 * hum ^ (1.5 : ℝ) * Real.arctan (0.023101 * hum) - 4.686035

/-- `humidex = temp + 0.5555 * (vaporPressure - 10.0)`. -/
def humidex (temp hum : ℝ) : ℝ := temp + 0.5555 * (vaporPressure temp hum - 10.0)

/-- `enthalpy = 1.006 * temp + (2501 + 1.86 * temp) * hum / 100.0`. -/
def enthalpy (temp hum : ℝ) : ℝ := 1.006 * temp + (2501 + 1.86 * temp) * hum / 100.0

end

/-! ### Rolling-log lemmas -/

/-- While the log stays within capacity, a sequence of `add_log` calls
simply appends every entry: no eviction happens. -/
theorem foldl_add_log_in_capacity (entries : List LogEntry) :
    ∀ start : List LogEntry, start.length + entries.length ≤ LOG_SIZE →
      entries.foldl (fun l e => add_log l e.1 e.2) start = start ++ entries := by
  induction entries with
  | nil => intro start _; simp
  | cons e rest ih =>
      intro start h
      simp only [List.length_cons] at h
      have hlt : start.length < LOG_SIZE := by omega
      have hstep : add_log start e.1 e.2 = start ++ [e] := by
        simp [add_log, hlt]
      simp only [List.foldl_cons, hstep]
      rw [ih (start ++ [e]) (by simp; omega)]
      simp

/-- C5: after `log_count = 0`, any sequence of at most `LOG_SIZE`
`add_log` calls never evicts — the resulting log is exactly the appended
entries in append order, so the i-th stored message is the i-th appended
message. -/
theorem clear_then_append_retains_all (entries : List LogEntry)
    (h : entries.length ≤ LOG_SIZE) : replayLog entries = entries := by
  have hfold := foldl_add_log_in_capacity entries clearLog
    (by simpa [clearLog] using h)
  simpa [replayLog, clearLog] using hfold

/-- Witness for `clear_then_append_retains_all` at a concrete
3-message sequence. -/
theorem clear_then_append_retains_all_witness :
    replayLog [("a", 1), ("b", 2), ("c", 3)] = [("a", 1), ("b", 2), ("c", 3)] :=
  clear_then_append_retains_all [("a", 1), ("b", 2), ("c", 3)] (by decide)

/-- C3: appending 7 entries to the empty log yields the last 6 of them
(the first is the 2nd appended message and the last the 7th); in
general, `add_log` on a full log drops the entry at index 0, shifts
every remaining entry down by one index, places the new entry at index
`LOG_SIZE - 1`, and keeps the count at `LOG_SIZE`. -/
theorem add_log_fifo_eviction
    (m1 m2 m3 m4 m5 m6 m7 : String) (t1 t2 t3 t4 t5 t6 t7 : Nat)
    (log : List LogEntry) (hfull : log.length = LOG_SIZE) (m : String) (t : Nat) :
    replayLog [(m1, t1), (m2, t2), (m3, t3), (m4, t4), (m5, t5), (m6, t6), (m7, t7)]
      = [(m2, t2), (m3, t3), (m4, t4), (m5, t5), (m6, t6), (m7, t7)] ∧
    (add_log log m t).length = LOG_SIZE ∧
    (∀ i : Nat, i + 1 < LOG_SIZE → (add_log log m t)[i]? = log[i + 1]?) ∧
    (add_log log m t)[LOG_SIZE - 1]? = some (m, t) := by
  have hnolt : ¬ log.length < LOG_SIZE := by omega
  have hev : add_log log m t = log.drop 1 ++ [(m, t)] := by
    simp [add_log, hnolt]
  have hdroplen : (log.drop 1).length = LOG_SIZE - 1 := by
    simp [hfull]
  refine ⟨rfl, ?_, ?_, ?_⟩
  · rw [hev]
    simp [hfull, LOG_SIZE]
  · intro i hi
    rw [hev, List.getElem?_append_left (by omega), List.getElem?_drop,
      Nat.add_comm]
  · rw [hev, List.getElem?_append_right (by omega), hdroplen]
    simp

/-- Witness for `add_log_fifo_eviction`: seven concrete appends, and
eviction on a concrete full log. -/
theorem add_log_fifo_eviction_witness :
    replayLog [("a", 1), ("b", 2), ("c", 3), ("d", 4), ("e", 5), ("f", 6), ("g", 7)]
      = [("b", 2), ("c", 3), ("d", 4), ("e", 5), ("f", 6), ("g", 7)] ∧
    (add_log [("a", 1), ("b", 2), ("c", 3), ("d", 4), ("e", 5), ("f", 6)] "g" 7)[0]?
      = some ("b", 2) ∧
    (add_log [("a", 1), ("b", 2), ("c", 3), ("d", 4), ("e", 5), ("f", 6)] "g" 7)[LOG_SIZE - 1]?
      = some ("g", 7) := by
  have h := add_log_fifo_eviction "a" "b" "c" "d" "e" "f" "g" 1 2 3 4 5 6 7
    [("a", 1), ("b", 2), ("c", 3), ("d", 4), ("e", 5), ("f", 6)] (by decide) "g" 7
  exact ⟨h.1, (h.2.2.1 0 (by decide)).trans (by decide), h.2.2.2⟩

/-- C9: the count invariant `0 ≤ log_count ≤ LOG_SIZE` is preserved by
`add_log` and by the per-cycle clear; `add_log` on a full log keeps the
count at `LOG_SIZE`; and every entry stored after a call is either the
new entry or one already stored, so the entries always fit in the six
array slots 0..5. -/
theorem log_count_invariant (log : List LogEntry) (m : String) (t : Nat)
    (h : log.length ≤ LOG_SIZE) :
    (add_log log m t).length ≤ LOG_SIZE ∧
    clearLog.length ≤ LOG_SIZE ∧
    (log.length = LOG_SIZE → (add_log log m t).length = LOG_SIZE) ∧
    (∀ e ∈ add_log log m t, e = (m, t) ∨ e ∈ log) := by
  have h6 : LOG_SIZE = 6 := rfl
  by_cases hlt : log.length < LOG_SIZE
  · refine ⟨by simp [add_log, hlt]; omega, by simp [clearLog],
      fun hfull => by omega, fun e he => ?_⟩
    simp only [add_log, if_pos hlt, List.mem_append, List.mem_singleton] at he
    exact he.symm
  · have hev : add_log log m t = log.drop 1 ++ [(m, t)] := by
      simp [add_log, hlt]
    have hlen : (add_log log m t).length = log.length := by
      rw [hev]
      simp
      omega
    refine ⟨by omega, by simp [clearLog], fun _ => by omega, fun e he => ?_⟩
    rw [hev] at he
    simp only [List.mem_append, List.mem_singleton] at he
    rcases he with he | he
    · exact Or.inr (List.mem_of_mem_drop he)
    · exact Or.inl he

/-- Witness for `log_count_invariant` on a concrete one-entry log. -/
theorem log_count_invariant_witness :
    (add_log [("a", 1)] "b" 2).length ≤ LOG_SIZE ∧
    (("b", 2) = (("b", 2) : LogEntry) ∨ (("b", 2) : LogEntry) ∈ [(("a", 1) : LogEntry)]) := by
  have h := log_count_invariant [("a", 1)] "b" 2 (by decide)
  exact ⟨h.1, h.2.2.2 ("b", 2) (by decide)⟩

/-! ### Renderer lemmas -/

/-- C6: the log section prints exactly 8 lines (header, six entry/blank
slots, one trailing blank) whatever the current entry count is. -/
theorem print_log_section_constant_length (log : List LogEntry)
    (h : log.length ≤ LOG_SIZE) :
    (print_log_section log).length = 8 := by
  have h6 : LOG_SIZE = 6 := rfl
  simp [print_log_section]
  omega

/-- Witness for `print_log_section_constant_length` on a one-entry log. -/
theorem print_log_section_constant_length_witness :
    (print_log_section [(WAIT_MSG, 0)]).length = 8 :=
  print_log_section_constant_length [(WAIT_MSG, 0)] (by decide)

/-- C4 fails as stated: a log holding the wait-marker entry (timestamp
0) renders it without any timestamp — the printed line is the bare
marker, not the `[HH:MM:SS] message` form (which for timestamp 0 would
carry `[00:00:00]`). -/
theorem wait_marker_line_has_no_timestamp :
    (print_log_section [(WAIT_MSG, 0)])[1]? = some ("  " ++ WAIT_MSG) ∧
    "  " ++ WAIT_MSG ≠ "  " ++ timeStamp 0 ++ " " ++ WAIT_MSG := by
  exact ⟨by decide, by decide⟩

/-- C4 (amended): the entry at index i of the log is printed on line
i+1 of the log section; entries other than the wait marker are formatted
as `  [HH:MM:SS] message` with HH:MM:SS derived from the entry's
timestamp in milliseconds, while the wait-marker entry is printed
without the timestamp. -/
theorem log_section_renders_entries (log : List LogEntry) (i : Nat)
    (h : i < log.length) :
    (print_log_section log)[i + 1]? =
      some (if (log.get ⟨i, h⟩).1 = WAIT_MSG
        then "  " ++ (log.get ⟨i, h⟩).1
        else "  " ++ timeStamp (log.get ⟨i, h⟩).2 ++ " " ++ (log.get ⟨i, h⟩).1) := by
  have hline : (print_log_section log)[i + 1]? = (log.map logLine)[i]? := by
    simp only [print_log_section, List.getElem?_cons_succ]
    rw [List.getElem?_append_left (by simp; omega),
      List.getElem?_append_left (by simpa using h)]
  rw [hline, List.getElem?_map, List.getElem?_eq_getElem h]
  simp [logLine, List.get_eq_getElem]

/-- Witness for `log_section_renders_entries`: a concrete entry with
timestamp 3661000 ms is printed as `  [01:01:01] boot`. -/
theorem log_section_renders_entries_witness :
    (print_log_section [("boot", 3661000)])[1]? = some "  [01:01:01] boot" := by
  have h := log_section_renders_entries [("boot", 3661000)] 0 (by decide)
  exact h.trans (by decide)

/-! ### Acquisition-loop lemmas -/

/-- C1 fails on the code: after the last rendering call of the cycle the
invalid-reading branch blocks for 20000 ms (eight iterations of
`blinkLed(1, 625)` plus `delay(625)`, then `delay(5000)`), while the
valid-reading branch blocks for only 15000 ms (the same eight
iterations, with no trailing delay) — the two totals are not equal,
although the comments in both branches describe a 10-second wait. -/
theorem branch_waits_differ :
    totalSleep (afterLastRender (loopTrace true true)) = 20000 ∧
    totalSleep (afterLastRender (loopTrace false false)) = 15000 ∧
    totalSleep (afterLastRender (loopTrace true true)) ≠
      totalSleep (afterLastRender (loopTrace false false)) := by
  exact ⟨by decide, by decide, by decide⟩

/-- C2: in every cycle where the temperature or humidity reading is NaN,
no metric is computed and no metrics panel rendered; the log receives
exactly the measurement-received entry, the sensor-error entry and the
wait marker; the only rendering calls are the log section and the
instructions footer; and the cycle blocks for the same fixed 20000 ms
window whatever combination of readings was invalid (no backoff, no
fatal state — the trace is a complete cycle and the loop retries). -/
theorem invalid_cycle_behaviour (tempIsNan humIsNan : Bool)
    (h : (tempIsNan || humIsNan) = true) :
    Ev.computeMetrics ∉ loopTrace tempIsNan humIsNan ∧
    Ev.printPanel ∉ loopTrace tempIsNan humIsNan ∧
    cycleLogMsgs tempIsNan humIsNan =
      ["Measurement received from DHT11.", "Sensor error: nan values.", WAIT_MSG] ∧
    (loopTrace tempIsNan humIsNan).filter isRenderEv = [Ev.printLog, Ev.printInstr] ∧
    totalSleep (loopTrace tempIsNan humIsNan) = 20000 := by
  cases tempIsNan <;> cases humIsNan
  · exact absurd h (by decide)
  · decide
  · decide
  · decide

/-- Witness for `invalid_cycle_behaviour` with both readings NaN. -/
theorem invalid_cycle_behaviour_witness :
    Ev.computeMetrics ∉ loopTrace true true ∧
    Ev.printPanel ∉ loopTrace true true ∧
    cycleLogMsgs true true =
      ["Measurement received from DHT11.", "Sensor error: nan values.", WAIT_MSG] ∧
    (loopTrace true true).filter isRenderEv = [Ev.printLog, Ev.printInstr] ∧
    totalSleep (loopTrace true true) = 20000 :=
  invalid_cycle_behaviour true true (by decide)

/-- C8 fails as stated: the cycle starts by reading the sensor, and only
then clears the log and appends the measurement-received entry — not
clear, append, read. -/
theorem cycle_start_order_counterexample :
    (loopTrace true true).take 3 =
      [Ev.sensorRead, Ev.logClear, Ev.logAdd "Measurement received from DHT11."] ∧
    (loopTrace true true).take 3 ≠
      [Ev.logClear, Ev.logAdd "Measurement received from DHT11.", Ev.sensorRead] := by
  exact ⟨by decide, by decide⟩

/-- C8 (amended): every acquisition cycle begins, in this order, with
the sensor read (temperature and humidity), then the log clear, then the
append of the measurement-received entry. -/
theorem cycle_start_order (tempIsNan humIsNan : Bool) :
    (loopTrace tempIsNan humIsNan).take 3 =
      [Ev.sensorRead, Ev.logClear, Ev.logAdd "Measurement received from DHT11."] := by
  cases tempIsNan <;> cases humIsNan <;> decide

/-- C10: each cycle performs at most 5 `add_log` calls after its
`log_count = 0` reset (3 on the invalid branch, 5 on the valid branch),
so replaying them always keeps the count strictly below `LOG_SIZE` at
every step — the eviction branch of `add_log` is unreachable at runtime
and every appended entry is retained. -/
theorem cycle_never_evicts (tempIsNan humIsNan : Bool) (entries : List LogEntry)
    (h : entries.map Prod.fst = cycleLogMsgs tempIsNan humIsNan) :
    entries.length ≤ 5 ∧
    (∀ i : Nat, (replayLog (entries.take i)).length < LOG_SIZE) ∧
    replayLog entries = entries := by
  have hlen : entries.length ≤ 5 := by
    have hmap := congrArg List.length h
    simp only [List.length_map] at hmap
    rw [hmap]
    cases tempIsNan <;> cases humIsNan <;> decide
  have h6 : LOG_SIZE = 6 := rfl
  have hreplay : ∀ l : List LogEntry, l.length ≤ LOG_SIZE → replayLog l = l := by
    intro l hl
    have := foldl_add_log_in_capacity l clearLog (by simpa [clearLog] using hl)
    simpa [replayLog, clearLog] using this
  refine ⟨hlen, fun i => ?_, hreplay entries (by omega)⟩
  have htake : (entries.take i).length ≤ 5 := by
    rw [List.length_take]
    omega
  rw [hreplay (entries.take i) (by omega)]
  omega

/-- Witness for `cycle_never_evicts`: the five valid-branch messages
with concrete timestamps. -/
theorem cycle_never_evicts_witness :
    ([("Measurement received from DHT11.", 1), ("Calculations for metrics done.", 2),
      ("Parsing data to serial output.", 3), ("Successful display to serial monitor.", 4),
      (WAIT_MSG, 5)] : List LogEntry).length ≤ 5 ∧
    (replayLog (([("Measurement received from DHT11.", 1), ("Calculations for metrics done.", 2),
      ("Parsing data to serial output.", 3), ("Successful display to serial monitor.", 4),
      (WAIT_MSG, 5)] : List LogEntry).take 2)).length < LOG_SIZE := by
  have h := cycle_never_evicts false false
    [("Measurement received from DHT11.", 1), ("Calculations for metrics done.", 2),
     ("Parsing data to serial output.", 3), ("Successful display to serial monitor.", 4),
     (WAIT_MSG, 5)] (by decide)
  exact ⟨h.1, h.2.1 2⟩

/-! ### Metric-bank reference values -/

/-- Lower bound for `exp (7929/9004)`, half of the exponent
`17.62·27/(243.12+27)`, from the degree-8 Taylor partial sum. -/
lemma exp_half_arg_lo : (2.412365 : ℝ) ≤ Real.exp (7929 / 9004) := by
  have h := Real.sum_le_exp_of_nonneg (x := (7929 : ℝ) / 9004) (by norm_num) 9
  have hs : (2.412365 : ℝ) ≤ ∑ i ∈ Finset.range 9, ((7929 : ℝ) / 9004) ^ i / i.factorial := by
    norm_num [Finset.sum_range_succ, Nat.factorial]
  linarith

/-- Upper bound for `exp (7929/9004)` from the degree-9 Taylor partial
sum plus remainder bound. -/
lemma exp_half_arg_hi : Real.exp (7929 / 9004) ≤ 2.412368 := by
  have h := Real.exp_bound' (x := (7929 : ℝ) / 9004) (by norm_num) (by norm_num)
    (n := 10) (by norm_num)
  refine le_trans h ?_
  push_cast
  norm_num [Finset.sum_range_succ, Nat.factorial]

/-- Rational bounds for the exponential factor shared by the
vapor-pressure formulas at T = 27. -/
lemma expFactor_bounds :
    (5.819504 : ℝ) ≤ Real.exp ((17.62 * 27) / (243.12 + 27)) ∧
    Real.exp ((17.62 * 27) / (243.12 + 27)) ≤ 5.81952 := by
  have harg : ((17.62 * 27 : ℝ)) / (243.12 + 27) = 7929 / 9004 + 7929 / 9004 := by
    norm_num
  rw [harg, Real.exp_add]
  constructor
  · have hm := mul_le_mul exp_half_arg_lo exp_half_arg_lo (by norm_num)
      (Real.exp_pos ((7929 : ℝ) / 9004)).le
    have hc : (5.819504 : ℝ) ≤ 2.412365 * 2.412365 := by norm_num
    linarith
  · have hm := mul_le_mul exp_half_arg_hi exp_half_arg_hi
      (Real.exp_pos ((7929 : ℝ) / 9004)).le (by norm_num)
    have hc : (2.412368 : ℝ) * 2.412368 ≤ 5.81952 := by norm_num
    linarith

/-- C7: at T = 27.00 and RH = 43.00 the metric-bank formulas give
dewPoint = 15.60 exactly and vaporPressure, satVaporPressure, humidex
and enthalpy within half a unit in the last place of 15.29, 35.57,
29.94 and 1124.19 respectively (two decimal places). -/
theorem metric_reference_values :
    dewPoint 27 43 = 15.60 ∧
    |vaporPressure 27 43 - 15.29| < 0.005 ∧
    |satVaporPressure 27 - 35.57| < 0.005 ∧
    |humidex 27 43 - 29.94| < 0.005 ∧
    |enthalpy 27 43 - 1124.19| < 0.005 := by
  obtain ⟨hlo, hhi⟩ := expFactor_bounds
  refine ⟨by norm_num [dewPoint], ?_, ?_, ?_, ?_⟩
  · simp only [vaporPressure]
    rw [abs_lt]
    constructor <;> linarith
  · simp only [satVaporPressure]
    rw [abs_lt]
    constructor <;> linarith
  · simp only [humidex, vaporPressure]
    rw [abs_lt]
    constructor <;> linarith
  · simp only [enthalpy]
    rw [abs_lt]
    norm_num

end WeatherStation
